import Mathlib

/-!
Shallow embedding of the video-processing batch program
(src/process_videos.py) and verification of its specification.

The relational store is modelled as a list of product rows; the external
transcoding engine, text generation and speech synthesis are modelled as
capabilities, exactly where the source treats them as external subprocesses.
All definitions are translated from the source; line references point into
src/process_videos.py.
-/

namespace ProcessVideos

/-! ## Data model: the products table

One row of public.products, restricted to the columns the program touches
(lines 90-95 and 116-122): id, crawl_status, merge_status, r2_video_url,
processed_at. video_data is carried separately by ProductRow below.
-/

structure Job where
  id : Int
  crawl_status : Bool
  merge_status : Bool
  r2_video_url : Option String
  processed_at : Option String
deriving DecidableEq, Repr

/-- The column assignments of the UPDATE at lines 116-122: merge_status
TRUE, r2_video_url, processed_at = NOW(). -/
def mark_merged (url now : String) (j : Job) : Job :=
  { j with merge_status := true, r2_video_url := some url, processed_at := some now }

/-- `update_merge_status` (lines 110-134): sets merge_status to TRUE,
stores the published URL and stamps processed_at, keyed by id. -/
def update_merge_status (db : List Job) (pid : Int) (url now : String) : List Job :=
  db.map fun j => if j.id = pid then mark_merged url now j else j

/-- `update_crawl_status` (lines 136-158): sets crawl_status, keyed by id. -/
def update_crawl_status (db : List Job) (pid : Int) (status : Bool) : List Job :=
  db.map fun j => if j.id = pid then { j with crawl_status := status } else j

/-- The WHERE clause of the pending-products query (line 93):
merge_status = FALSE AND crawl_status = TRUE. -/
def pendingP (j : Job) : Bool :=
  j.merge_status = false && j.crawl_status = true

/-- The ORDER BY id comparison (line 94). -/
def jobLe (a b : Job) : Bool := a.id ≤ b.id

/-- `get_pending_products` (lines 84-104): rows with merge_status = FALSE
and crawl_status = TRUE, ordered by id ascending. -/
def get_pending_products (db : List Job) : List Job :=
  (db.filter pendingP).mergeSort jobLe

/-! ## Download stage (lines 236-319)

One curl invocation plus its validation (lines 256-297) is summarised by
the observations the code makes about it: the stripped stdout of curl
(which holds the value of the http_code write-out), whether the
destination file was created, its size, and whether the ffprobe structural
validation exited with code 0.
-/

structure Attempt where
  curl_stdout : String
  file_created : Bool
  file_size : Nat
  probe_ok : Bool
deriving DecidableEq, Repr

/-- Line 268: http_code is the stripped stdout of curl when that stdout
is truthy, and the string "000" otherwise. `curl_stdout` carries the
already-stripped text, so only the emptiness test remains. -/
def http_code (a : Attempt) : String :=
  if a.curl_stdout = "" then "000" else a.curl_stdout

/-- An attempt succeeds iff the file exists (line 273), is non-empty
(line 277) and passes the ffprobe validation (line 295). Any failed check
raises, which the retry loop catches. -/
def attempt_ok (a : Attempt) : Bool :=
  a.file_created && a.file_size != 0 && a.probe_ok

/-- The retry loop for one URL (lines 251-313): up to 3 attempts;
`last_http_code` is updated at every attempt (line 269); on the final
failed attempt the loop returns (False, last_http_code) (line 313);
a successful attempt breaks out of the loop (line 300). The attempt list
supplies one observation per iteration actually executed. -/
def download_retry : List Attempt → Option String → Bool × Option String
  | [], last => (false, last)
  | a :: rest, _ =>
    if attempt_ok a then (true, some (http_code a))
    else if rest.isEmpty then (false, some (http_code a))
    else download_retry rest (some (http_code a))

/-- `download_videos` (lines 236-319): downloads each video in order; the
first URL whose retries are exhausted makes the whole call return
(False, last_http_code); if every video downloads, returns (True, None)
(line 315). -/
def download_videos : List (List Attempt) → Bool × Option String
  | [] => (true, none)
  | v :: rest =>
    let r := download_retry v none
    if r.1 then download_videos rest else (false, r.2)

/-- The download-failure branch of `process_product` (lines 191-200):
only the error code "404" triggers `update_crawl_status(product_id, False)`;
every other code leaves the table untouched and the job simply fails. -/
def handle_download_failure (db : List Job) (pid : Int) (error_code : Option String) :
    List Job :=
  if error_code = some "404" then update_crawl_status db pid false else db

/-! ## Trim stage (lines 321-380)

Each source video is summarised by the observations the code makes: its
ffprobe duration and its encoding profile. The ffmpeg invocation at lines
358-365 re-encodes to a fixed target (libx264 crf 23, aac 128k 48000 Hz,
30 fps) with output duration `new_duration`; the line 373 branch instead
copies the input file byte-for-byte (shutil.copy), keeping its duration
and profile.
-/

structure Profile where
  video_codec : String
  video_crf : Nat
  audio_codec : String
  audio_bitrate : String
  audio_sample_rate : Nat
  frame_rate : Nat
deriving DecidableEq, Repr

/-- The fixed re-encode target of lines 361-363 (identical at the merge
step, lines 401-403). -/
def target_profile : Profile :=
  { video_codec := "libx264", video_crf := 23, audio_codec := "aac",
    audio_bitrate := "128k", audio_sample_rate := 48000, frame_rate := 30 }

structure SourceVideo where
  duration : ℚ
  profile : Profile
deriving DecidableEq, Repr

structure TrimmedAsset where
  duration : ℚ
  profile : Profile
deriving DecidableEq, Repr

/-- The per-video body of `process_videos` (lines 353-374):
`new_duration = duration - 4`; if positive, trim to that duration with the
fixed re-encode target; otherwise copy the original unmodified. -/
def trim_video (v : SourceVideo) : TrimmedAsset :=
  let new_duration := v.duration - 4
  if 0 < new_duration then { duration := new_duration, profile := target_profile }
  else { duration := v.duration, profile := v.profile }

/-- `process_videos` over the whole video list (lines 327-374): the
trimmed_i.mp4 assets later read by the concat stage (lines 392-393). -/
def process_videos_stage (vids : List SourceVideo) : List TrimmedAsset :=
  vids.map trim_video

/-! ## Narration budget (lines 432-445) -/

/-- Python `int()` on a real value truncates toward zero. -/
def py_int (q : ℚ) : ℤ := if 0 ≤ q then ⌊q⌋ else ⌈q⌉

/-- `calculate_target_script_length` (lines 432-445):
`int(video_duration * chars_per_second)`. -/
def calculate_target_script_length (video_duration chars_per_second : ℚ) : ℤ :=
  py_int (video_duration * chars_per_second)

/-- The default value of the chars_per_second parameter (line 432), used
by the call at line 461. -/
def default_chars_per_second : ℚ := 15

/-! ## Caption font size (lines 571-579) -/

/-- The font-size bucketing of `add_text_overlay` on
`text_length = len(overlay_text)` (lines 572-579). -/
def overlay_fontsize (text_length : Nat) : Nat :=
  if text_length > 70 then 28
  else if text_length > 50 then 32
  else 38

/-! ## Scratch directories (lines 55-82, 547-557)

The three working directories created by `setup_directories` are modelled
by the files they hold; scripts_dir files carry their content, since
`add_text_overlay` reads text_overlay.txt from there.
-/

structure Scratch where
  videos_dir : List String
  output_dir : List String
  scripts_dir : List (String × String)
deriving DecidableEq, Repr

/-- `cleanup_directories` (lines 76-82): rmtree + mkdir on videos_dir and
output_dir only; the loop at line 78 does not include scripts_dir. -/
def cleanup_directories (s : Scratch) : Scratch :=
  { videos_dir := [], output_dir := [], scripts_dir := s.scripts_dir }

/-- The overlay-text selection of `add_text_overlay` (lines 547-557):
if text_overlay.txt exists in scripts_dir its content is used, else the
product name is the fallback. -/
def read_overlay (scripts_dir : List (String × String)) (product_name : String) : String :=
  match scripts_dir.lookup "text_overlay.txt" with
  | some content => content
  | none => product_name

/-! ## Configuration surface (lines 33-68) -/

/-- The environment variables the program reads, each possibly unset. -/
structure Env where
  DATABASE_URL : Option String
  R2_ACCESS_KEY_ID : Option String
  R2_SECRET_ACCESS_KEY : Option String
  R2_ENDPOINT : Option String
  R2_BUCKET_NAME : Option String
  HUGGINGFACE_ENDPOINT : Option String
  HUGGINGFACE_MODEL : Option String
  HUGGINGFACE_API_KEY : Option String
  ZALO_API_KEY : Option String
deriving DecidableEq, Repr

/-- Python truthiness of an os.getenv result: unset and empty both test
false (lines 37 and 46 use `not` / `all` on the raw values). -/
def py_truthy : Option String → Bool
  | none => false
  | some s => s ≠ ""

/-- `os.getenv(name, default)`: the default applies only when unset. -/
def getenv_default (o : Option String) (d : String) : String :=
  match o with
  | none => d
  | some s => s

/-- The fields VideoProcessor.__init__ stores (lines 36-53). -/
structure Config where
  db_url : String
  r2_access_key : String
  r2_secret_key : String
  r2_endpoint : String
  r2_bucket : String
  huggingface_endpoint : String
  huggingface_model : String
  huggingface_api_key : Option String
  zalo_api_key : Option String
deriving DecidableEq, Repr

/-- `VideoProcessor.__init__` (lines 33-68): raises ValueError when
DATABASE_URL is falsy (line 37) or when any of the three R2 credentials is
falsy (line 46); R2_BUCKET_NAME, HUGGINGFACE_ENDPOINT and
HUGGINGFACE_MODEL fall back to defaults (lines 44, 50, 51);
HUGGINGFACE_API_KEY and ZALO_API_KEY are stored unchecked (lines 52-53). -/
def init_processor (e : Env) : Except String Config :=
  if py_truthy e.DATABASE_URL = false then
    Except.error "DATABASE_URL environment variable is required"
  else if (py_truthy e.R2_ACCESS_KEY_ID && py_truthy e.R2_SECRET_ACCESS_KEY &&
      py_truthy e.R2_ENDPOINT) = false then
    Except.error "R2 credentials are required"
  else
    Except.ok
      { db_url := getenv_default e.DATABASE_URL ""
        r2_access_key := getenv_default e.R2_ACCESS_KEY_ID ""
        r2_secret_key := getenv_default e.R2_SECRET_ACCESS_KEY ""
        r2_endpoint := getenv_default e.R2_ENDPOINT ""
        r2_bucket := getenv_default e.R2_BUCKET_NAME "yt-2-tiktok"
        huggingface_endpoint :=
          getenv_default e.HUGGINGFACE_ENDPOINT
            "https://router.huggingface.co/v1/chat/completions"
        huggingface_model := getenv_default e.HUGGINGFACE_MODEL "deepseek-ai/DeepSeek-V3.2-Exp"
        huggingface_api_key := e.HUGGINGFACE_API_KEY
        zalo_api_key := e.ZALO_API_KEY }

/-- The child-process environment built by `generate_script`
(lines 463-466). When huggingface_api_key is None the subprocess
invocation with that environment raises, which the handler at line 479
turns into a failed job; the startup check never rejects it. -/
def generate_script_env (c : Config) : Option (List (String × String)) :=
  match c.huggingface_api_key with
  | none => none
  | some k =>
    some [("HUGGINGFACE_ENDPOINT", c.huggingface_endpoint),
          ("HUGGINGFACE_MODEL", c.huggingface_model),
          ("HUGGINGFACE_API_KEY", k)]

/-! ## The batch loop `run` (lines 667-733) -/

/-- The shape of a fetched video_data value, as far as the validation at
lines 691-705 inspects it: SQL NULL, a JSON value that is not an object,
or an object whose videos key is absent, holds a non-list, or holds a
list of source descriptors. -/
inductive VideosField where
  | missing
  | not_list
  | of_list (urls : List String)
deriving DecidableEq, Repr

inductive VideoData where
  | null
  | not_dict
  | dict (videos : VideosField)
deriving DecidableEq, Repr

/-- The validation of lines 691-705 (mirrored at lines 167-180): NULL,
non-dict, and a missing, non-list or empty videos value all lead to the
skip branch; only an object with a non-empty videos list proceeds. -/
def valid_video_data : VideoData → Bool
  | .null => false
  | .not_dict => false
  | .dict .missing => false
  | .dict .not_list => false
  | .dict (.of_list urls) => !urls.isEmpty

/-- One row fetched by the pending query: id plus video_data. -/
structure ProductRow where
  id : Int
  video_data : VideoData
deriving DecidableEq, Repr

inductive Outcome where
  | success
  | failed
  | skipped
deriving DecidableEq, Repr

/-- The three counters of the run summary (lines 682-684). -/
structure Counters where
  success_count : Nat
  failed_count : Nat
  skipped_count : Nat
deriving DecidableEq, Repr

/-- The counter increment each loop iteration performs
(lines 693, 698, 704, 717, 721, 723). -/
def tally (c : Counters) : Outcome → Counters
  | .success => { c with success_count := c.success_count + 1 }
  | .failed => { c with failed_count := c.failed_count + 1 }
  | .skipped => { c with skipped_count := c.skipped_count + 1 }

/-- One iteration of the loop at lines 686-724. The pipeline of
`process_product` (download through upload, with its internal database
effect on a 404) is the capability `process_effect`, returning the
optional published URL and the table state it leaves behind; `update_ok`
tells whether the `update_merge_status` write at line 716 commits or
raises. An invalid video_data is counted skipped before any work touches
the table (lines 691-705). -/
def run_step (process_effect : ProductRow → List Job → Option String × List Job)
    (update_ok : Int → Bool) (now : String) (db : List Job) (p : ProductRow) :
    Outcome × List Job :=
  if valid_video_data p.video_data = false then (Outcome.skipped, db)
  else
    let r := process_effect p db
    match r.1 with
    | some url =>
      if update_ok p.id then (Outcome.success, update_merge_status r.2 p.id url now)
      else (Outcome.failed, r.2)
    | none => (Outcome.failed, r.2)

/-- The whole loop of `run` over the fetched products (lines 682-724),
threading the counters and the table state. -/
def run_batch (process_effect : ProductRow → List Job → Option String × List Job)
    (update_ok : Int → Bool) (now : String) (db : List Job)
    (products : List ProductRow) : Counters × List Job :=
  products.foldl
    (fun acc p =>
      let s := run_step process_effect update_ok now acc.2 p
      (tally acc.1 s.1, s.2))
    ({ success_count := 0, failed_count := 0, skipped_count := 0 }, db)

/-- A fully successful sweep: every selected job finishes its pipeline and
gets the `update_merge_status` write of line 716. -/
def successful_sweep (db : List Job) (url now : String) : List Job :=
  (get_pending_products db).foldl (fun d j => update_merge_status d j.id url now) db

/-! ## Concrete inputs used by witnesses and counterexamples -/

/-- A source profile different from the fixed re-encode target. -/
def other_profile : Profile :=
  { video_codec := "vp9", video_crf := 0, audio_codec := "opus",
    audio_bitrate := "96k", audio_sample_rate := 44100, frame_rate := 24 }

/-- Scratch state as left behind by a completed job: one downloaded video,
the final output, and the AI-generated overlay text in scripts_dir. -/
def leftover_scratch : Scratch :=
  { videos_dir := ["video_0.mp4"], output_dir := ["final_merged_video.mp4"],
    scripts_dir := [("text_overlay.txt", "overlay text from the previous job")] }

/-- An environment with the required database and object-store values but
no text-generation key, no speech key and no bucket override. -/
def env_missing_hf_key : Env :=
  { DATABASE_URL := some "postgres://db.example/products",
    R2_ACCESS_KEY_ID := some "access", R2_SECRET_ACCESS_KEY := some "secret",
    R2_ENDPOINT := some "https://r2.example", R2_BUCKET_NAME := none,
    HUGGINGFACE_ENDPOINT := none, HUGGINGFACE_MODEL := none,
    HUGGINGFACE_API_KEY := none, ZALO_API_KEY := none }

/-- The configuration `init_processor` builds from `env_missing_hf_key`. -/
def config_missing_hf_key : Config :=
  { db_url := "postgres://db.example/products", r2_access_key := "access",
    r2_secret_key := "secret", r2_endpoint := "https://r2.example",
    r2_bucket := "yt-2-tiktok",
    huggingface_endpoint := "https://router.huggingface.co/v1/chat/completions",
    huggingface_model := "deepseek-ai/DeepSeek-V3.2-Exp",
    huggingface_api_key := none, zalo_api_key := none }

/-- A curl attempt whose response is a 404 with no usable body. -/
def failing_attempt_404 : Attempt :=
  { curl_stdout := "404", file_created := false, file_size := 0, probe_ok := false }

/-- An eligible job row: crawled, not yet merged. -/
def stale_candidate_job : Job :=
  { id := 7, crawl_status := true, merge_status := false,
    r2_video_url := none, processed_at := none }

/-! ## Claim theorems -/

/-- C6: the narration budget is floor(duration times rate) for positive
duration and rate; targetLength(40, 15) = 600; the default rate is 15
characters per second. -/
theorem calculate_target_script_length_floor :
    (∀ d r : ℚ, 0 < d → 0 < r → calculate_target_script_length d r = ⌊d * r⌋) ∧
    calculate_target_script_length 40 default_chars_per_second = 600 ∧
    default_chars_per_second = 15 := by
  refine ⟨?_, ?_, rfl⟩
  · intro d r hd hr
    unfold calculate_target_script_length py_int
    rw [if_pos (le_of_lt (mul_pos hd hr))]
  · unfold calculate_target_script_length py_int default_chars_per_second
    norm_num

/-- Witness for C6 at duration 40 and rate 15. -/
theorem calculate_target_script_length_floor_witness :
    0 < (40 : ℚ) ∧ 0 < (15 : ℚ) ∧
    calculate_target_script_length 40 15 = ⌊(40 : ℚ) * 15⌋ :=
  ⟨by norm_num, by norm_num,
    calculate_target_script_length_floor.1 40 15 (by norm_num) (by norm_num)⟩

/-- C7: trimming removes 4 seconds when the probed duration exceeds 4,
and keeps the original asset, duration and content unchanged, when the
duration is at most 4. -/
theorem trim_duration_policy (v : SourceVideo) :
    (4 < v.duration → (trim_video v).duration = v.duration - 4) ∧
    (v.duration ≤ 4 →
      trim_video v = { duration := v.duration, profile := v.profile }) := by
  constructor
  · intro h
    have hpos : (0 : ℚ) < v.duration - 4 := by linarith
    simp [trim_video, hpos]
  · intro h
    have hneg : ¬ (0 : ℚ) < v.duration - 4 := by linarith
    simp [trim_video, hneg]

/-- Witness for C7 at durations 10 and 3. -/
theorem trim_duration_policy_witness :
    (4 < (10 : ℚ) ∧
      (trim_video { duration := 10, profile := target_profile }).duration = 10 - 4) ∧
    ((3 : ℚ) ≤ 4 ∧
      trim_video { duration := 3, profile := target_profile } =
        { duration := 3, profile := target_profile }) := by
  constructor
  · exact ⟨by norm_num, (trim_duration_policy _).1 (by norm_num)⟩
  · exact ⟨by norm_num, (trim_duration_policy _).2 (by norm_num)⟩

/-- C8: the caption font size is a pure function of the text length with
buckets greater than 70 giving 28, greater than 50 up to 70 giving 32,
and at most 50 giving 38; in particular 80, 60, 30, 70 and 50 give 28,
32, 38, 32 and 38. -/
theorem overlay_fontsize_buckets :
    (∀ n : Nat, (70 < n → overlay_fontsize n = 28) ∧
      (50 < n ∧ n ≤ 70 → overlay_fontsize n = 32) ∧
      (n ≤ 50 → overlay_fontsize n = 38)) ∧
    overlay_fontsize 80 = 28 ∧ overlay_fontsize 60 = 32 ∧
    overlay_fontsize 30 = 38 ∧ overlay_fontsize 70 = 32 ∧
    overlay_fontsize 50 = 38 := by
  refine ⟨?_, rfl, rfl, rfl, rfl, rfl⟩
  intro n
  refine ⟨fun h => ?_, fun h => ?_, fun h => ?_⟩ <;>
    · unfold overlay_fontsize
      split_ifs <;> omega

/-- Witness for C8 at lengths 80, 60 and 30. -/
theorem overlay_fontsize_buckets_witness :
    70 < 80 ∧ (50 < 60 ∧ 60 ≤ 70) ∧ 30 ≤ 50 ∧
    overlay_fontsize 80 = 28 ∧ overlay_fontsize 60 = 32 ∧
    overlay_fontsize 30 = 38 := by
  refine ⟨by decide, ⟨by decide, by decide⟩, by decide, ?_, ?_, ?_⟩
  · exact (overlay_fontsize_buckets.1 80).1 (by decide)
  · exact (overlay_fontsize_buckets.1 60).2.1 ⟨by decide, by decide⟩
  · exact (overlay_fontsize_buckets.1 30).2.2 (by decide)

/-- C2 counterexample: the pre-job cleanup does not wipe scripts_dir, so
the overlay text written by the previous job survives and the next job
reads it instead of its own product name. -/
theorem cleanup_leaves_overlay_counterexample :
    (cleanup_directories leftover_scratch).scripts_dir =
      [("text_overlay.txt", "overlay text from the previous job")] ∧
    read_overlay (cleanup_directories leftover_scratch).scripts_dir "NextProduct" =
      "overlay text from the previous job" :=
  ⟨rfl, rfl⟩

/-- C2 amended: the pre-job cleanup wipes the videos and output
directories (downloaded videos, trimmed clips, merged and final outputs)
but leaves scripts_dir untouched, so generated script text and overlay
text persist across jobs and the overlay read of the next job observes
them. -/
theorem cleanup_wipes_videos_and_output_only (s : Scratch) (name : String) :
    (cleanup_directories s).videos_dir = [] ∧
    (cleanup_directories s).output_dir = [] ∧
    (cleanup_directories s).scripts_dir = s.scripts_dir ∧
    read_overlay (cleanup_directories s).scripts_dir name =
      read_overlay s.scripts_dir name :=
  ⟨rfl, rfl, rfl, rfl⟩

/-- C4 counterexample: a 3-second source video reaches the concat stage
with its original profile, not the fixed re-encode target. -/
theorem concat_inputs_profile_counterexample :
    (process_videos_stage [{ duration := 3, profile := other_profile }]).map
        TrimmedAsset.profile = [other_profile] ∧
    other_profile ≠ target_profile := by
  constructor
  · have h : ¬ (0 : ℚ) < (3 : ℚ) - 4 := by norm_num
    simp [process_videos_stage, trim_video, h]
  · decide

/-- C4 amended: each asset handed to the concat stage is re-encoded to the
fixed target profile when its probed duration exceeds 4 seconds; a video
of duration at most 4 seconds is copied unmodified, so its original
profile reaches the concat stage. -/
theorem concat_inputs_profile_amended (vids : List SourceVideo) :
    process_videos_stage vids = vids.map trim_video ∧
    ∀ v ∈ vids,
      (4 < v.duration → (trim_video v).profile = target_profile) ∧
      (v.duration ≤ 4 → (trim_video v).profile = v.profile) := by
  refine ⟨rfl, ?_⟩
  intro v _
  constructor
  · intro h
    have hpos : (0 : ℚ) < v.duration - 4 := by linarith
    simp [trim_video, hpos]
  · intro h
    have hneg : ¬ (0 : ℚ) < v.duration - 4 := by linarith
    simp [trim_video, hneg]

/-- Witness for C4 amended at a 10-second video with a non-target
profile. -/
theorem concat_inputs_profile_amended_witness :
    (4 : ℚ) < 10 ∧
    (trim_video { duration := 10, profile := other_profile }).profile =
      target_profile := by
  refine ⟨by norm_num, ?_⟩
  exact ((concat_inputs_profile_amended
      [{ duration := 10, profile := other_profile }]).2
      { duration := 10, profile := other_profile } (by simp)).1 (by norm_num)

/-- C5 counterexample: with the text-generation key, the speech key and
the bucket all absent, startup still succeeds; no abort happens before
jobs are fetched. -/
theorem startup_accepts_missing_generation_keys_counterexample :
    env_missing_hf_key.HUGGINGFACE_API_KEY = none ∧
    env_missing_hf_key.ZALO_API_KEY = none ∧
    env_missing_hf_key.R2_BUCKET_NAME = none ∧
    init_processor env_missing_hf_key = Except.ok config_missing_hf_key :=
  ⟨rfl, rfl, rfl, rfl⟩

/-- C5 amended: startup aborts exactly when the database connection
string or one of the three object-store values (access key, secret,
endpoint) is falsy; the bucket, text-generation endpoint and model fall
back to defaults, and the text-generation and speech-synthesis keys are
stored unchecked — a missing text-generation key instead makes the
script-generation stage of every job fail. -/
theorem startup_config_requirements_amended (e : Env) (c : Config) :
    ((init_processor e).isOk =
      (py_truthy e.DATABASE_URL && (py_truthy e.R2_ACCESS_KEY_ID &&
        py_truthy e.R2_SECRET_ACCESS_KEY && py_truthy e.R2_ENDPOINT))) ∧
    (init_processor e = Except.ok c →
      c.r2_bucket = getenv_default e.R2_BUCKET_NAME "yt-2-tiktok" ∧
      c.huggingface_api_key = e.HUGGINGFACE_API_KEY ∧
      c.zalo_api_key = e.ZALO_API_KEY) ∧
    (c.huggingface_api_key = none → generate_script_env c = none) := by
  refine ⟨?_, ?_, ?_⟩
  · unfold init_processor
    split_ifs with h1 h2
    · simp [Except.isOk, Except.toBool, h1]
    · simp at h1
      simp [Except.isOk, Except.toBool, h1, h2]
    · simp at h1 h2
      simp [Except.isOk, Except.toBool, h1, h2]
  · intro h
    unfold init_processor at h
    split_ifs at h
    injection h with h
    subst h
    exact ⟨rfl, rfl, rfl⟩
  · intro h
    simp [generate_script_env, h]

/-- Witness for C5 amended at the environment missing the generation
keys. -/
theorem startup_config_requirements_amended_witness :
    init_processor env_missing_hf_key = Except.ok config_missing_hf_key ∧
    (config_missing_hf_key.r2_bucket =
        getenv_default env_missing_hf_key.R2_BUCKET_NAME "yt-2-tiktok" ∧
      config_missing_hf_key.huggingface_api_key =
        env_missing_hf_key.HUGGINGFACE_API_KEY ∧
      config_missing_hf_key.zalo_api_key = env_missing_hf_key.ZALO_API_KEY) ∧
    generate_script_env config_missing_hf_key = none := by
  have h := startup_config_requirements_amended env_missing_hf_key config_missing_hf_key
  exact ⟨rfl, h.2.1 rfl, h.2.2 rfl⟩

/-- Videos already downloaded successfully do not affect the result of
the remaining downloads. -/
lemma download_videos_append_of_ok (pre l : List (List Attempt))
    (hpre : ∀ v ∈ pre, (download_retry v none).1 = true) :
    download_videos (pre ++ l) = download_videos l := by
  induction pre with
  | nil => rfl
  | cons v pre ih =>
    have hv := hpre v (List.mem_cons_self v pre)
    have hrest : ∀ w ∈ pre, (download_retry w none).1 = true :=
      fun w hw => hpre w (List.mem_cons_of_mem v hw)
    simp [download_videos, hv, ih hrest]

/-- C1: when some URL exhausts all 3 attempts, the download stage fails
with the HTTP code of the last attempt; the orchestrator clears
crawl_status if and only if that code is "404", and merge_status is never
touched by the failure handling. -/
theorem download_exhaustion_classifies_404
    (pre rest : List (List Attempt)) (a1 a2 a3 : Attempt) (db : List Job) (pid : Int)
    (hpre : ∀ v ∈ pre, (download_retry v none).1 = true)
    (h1 : attempt_ok a1 = false) (h2 : attempt_ok a2 = false)
    (h3 : attempt_ok a3 = false) :
    download_videos (pre ++ [a1, a2, a3] :: rest) = (false, some (http_code a3)) ∧
    (http_code a3 = "404" →
      handle_download_failure db pid (some (http_code a3)) =
        db.map fun j => if j.id = pid then { j with crawl_status := false } else j) ∧
    (http_code a3 ≠ "404" →
      handle_download_failure db pid (some (http_code a3)) = db) ∧
    (handle_download_failure db pid (some (http_code a3))).map Job.merge_status =
      db.map Job.merge_status := by
  have hdl : download_retry [a1, a2, a3] none = (false, some (http_code a3)) := by
    simp [download_retry, h1, h2, h3]
  refine ⟨?_, ?_, ?_, ?_⟩
  · rw [download_videos_append_of_ok pre _ hpre]
    simp [download_videos, hdl]
  · intro h
    simp [handle_download_failure, h, update_crawl_status]
  · intro h
    simp [handle_download_failure, h]
  · unfold handle_download_failure
    split_ifs with h
    · unfold update_crawl_status
      rw [List.map_map]
      apply List.map_congr_left
      intro j _
      by_cases hj : j.id = pid <;> simp [Function.comp, hj]
    · rfl

/-- Witness for C1: three failed 404 attempts on the only URL of a job
whose row is crawled and unmerged. -/
theorem download_exhaustion_classifies_404_witness :
    download_videos [[failing_attempt_404, failing_attempt_404, failing_attempt_404]] =
      (false, some "404") ∧
    handle_download_failure [stale_candidate_job] 7 (some "404") =
      [{ stale_candidate_job with crawl_status := false }] := by
  have h := download_exhaustion_classifies_404 [] []
    failing_attempt_404 failing_attempt_404 failing_attempt_404
    [stale_candidate_job] 7 (by intro v hv; cases hv) rfl rfl rfl
  have hc : http_code failing_attempt_404 = "404" := rfl
  constructor
  · have h1 := h.1
    rw [hc] at h1
    simpa using h1
  · have h2 := h.2.1 hc
    rw [hc] at h2
    rw [h2]
    simp [stale_candidate_job]

/-- C9: a fetched job whose descriptor fails validation is counted
skipped and does not touch the table: neither crawl_status nor
merge_status is mutated for any row. -/
theorem skipped_jobs_leave_table_untouched
    (process_effect : ProductRow → List Job → Option String × List Job)
    (update_ok : Int → Bool) (now : String) (db : List Job) (p : ProductRow)
    (h : valid_video_data p.video_data = false) :
    run_step process_effect update_ok now db p = (Outcome.skipped, db) := by
  simp [run_step, h]

/-- Witness for C9 at a job with a NULL descriptor. -/
theorem skipped_jobs_leave_table_untouched_witness :
    valid_video_data VideoData.null = false ∧
    run_step (fun _ d => (none, d)) (fun _ => true) "2026-10-12" []
        { id := 1, video_data := VideoData.null } =
      (Outcome.skipped, []) :=
  ⟨rfl, skipped_jobs_leave_table_untouched _ _ _ _ _ rfl⟩

/-- The batch loop with explicit starting counters, the generalization of
`run_batch` used for induction. -/
def run_batch_from (process_effect : ProductRow → List Job → Option String × List Job)
    (update_ok : Int → Bool) (now : String) (c : Counters) (db : List Job)
    (products : List ProductRow) : Counters × List Job :=
  products.foldl
    (fun acc p =>
      let s := run_step process_effect update_ok now acc.2 p
      (tally acc.1 s.1, s.2))
    (c, db)

lemma run_batch_eq_from (process_effect : ProductRow → List Job → Option String × List Job)
    (update_ok : Int → Bool) (now : String) (db : List Job)
    (products : List ProductRow) :
    run_batch process_effect update_ok now db products =
      run_batch_from process_effect update_ok now
        { success_count := 0, failed_count := 0, skipped_count := 0 } db products := rfl

lemma run_batch_from_counts (process_effect : ProductRow → List Job → Option String × List Job)
    (update_ok : Int → Bool) (now : String) :
    ∀ (products : List ProductRow) (db : List Job) (c : Counters),
      (run_batch_from process_effect update_ok now c db products).1.success_count +
        (run_batch_from process_effect update_ok now c db products).1.failed_count +
        (run_batch_from process_effect update_ok now c db products).1.skipped_count =
        c.success_count + c.failed_count + c.skipped_count + products.length := by
  intro products
  induction products with
  | nil => intro db c; simp [run_batch_from]
  | cons p ps ih =>
    intro db c
    have step : run_batch_from process_effect update_ok now c db (p :: ps) =
        run_batch_from process_effect update_ok now
          (tally c (run_step process_effect update_ok now db p).1)
          (run_step process_effect update_ok now db p).2 ps := rfl
    rw [step, ih]
    cases (run_step process_effect update_ok now db p).1 <;>
      simp [tally] <;> omega

/-- C10: each fetched job increments exactly one of the three summary
counters, so at the end of the sweep the success, failed and skipped
counts add up to the number of fetched jobs. -/
theorem run_summary_counters_partition
    (process_effect : ProductRow → List Job → Option String × List Job)
    (update_ok : Int → Bool) (now : String) (db : List Job)
    (products : List ProductRow) :
    (run_batch process_effect update_ok now db products).1.success_count +
      (run_batch process_effect update_ok now db products).1.failed_count +
      (run_batch process_effect update_ok now db products).1.skipped_count =
      products.length := by
  rw [run_batch_eq_from]
  rw [run_batch_from_counts process_effect update_ok now products db]
  simp

lemma mark_merged_id (url now : String) (j : Job) :
    (mark_merged url now j).id = j.id := rfl

lemma mark_merged_merge (url now : String) (j : Job) :
    (mark_merged url now j).merge_status = true := rfl

lemma mark_merged_idem (url now : String) (j : Job) :
    mark_merged url now (mark_merged url now j) = mark_merged url now j := rfl

lemma get_pending_products_eq_nil {l : List Job} (h : l.filter pendingP = []) :
    get_pending_products l = [] := by
  unfold get_pending_products
  rw [h]
  simp

/-- Folding the merge-status update over a list of jobs marks exactly the
rows whose id occurs in that list. -/
lemma mark_foldl_eq_map (url now : String) :
    ∀ (js : List Job) (db : List Job),
      js.foldl (fun d j => update_merge_status d j.id url now) db =
        db.map fun x =>
          if x.id ∈ js.map Job.id then mark_merged url now x else x := by
  intro js
  induction js with
  | nil =>
    intro db
    simp
  | cons j rest ih =>
    intro db
    simp only [List.foldl_cons]
    rw [ih (update_merge_status db j.id url now)]
    unfold update_merge_status
    rw [List.map_map]
    apply List.map_congr_left
    intro x _
    by_cases hj : x.id = j.id <;> by_cases hr : x.id ∈ rest.map Job.id <;>
      simp [Function.comp, hj, hr, List.mem_cons, mark_merged_id, mark_merged_idem]

/-- C3: the batch selects exactly the rows with crawl_status TRUE and
merge_status FALSE, ordered by id ascending; marking every selected job
merged makes an immediate re-run select nothing. -/
theorem pending_selection_and_idempotence (db : List Job) (url now : String) :
    (∀ j, j ∈ get_pending_products db ↔
      j ∈ db ∧ j.crawl_status = true ∧ j.merge_status = false) ∧
    (get_pending_products db).Pairwise (fun a b => a.id ≤ b.id) ∧
    get_pending_products (successful_sweep db url now) = [] := by
  refine ⟨?_, ?_, ?_⟩
  · intro j
    unfold get_pending_products
    rw [List.mem_mergeSort, List.mem_filter]
    unfold pendingP
    constructor
    · rintro ⟨hmem, hp⟩
      simp at hp
      exact ⟨hmem, hp.2, hp.1⟩
    · rintro ⟨hmem, hc, hm⟩
      refine ⟨hmem, ?_⟩
      simp [hm, hc]
  · have htrans : ∀ a b c : Job, jobLe a b = true → jobLe b c = true →
        jobLe a c = true := by
      intro a b c hab hbc
      simp [jobLe] at *
      omega
    have htotal : ∀ a b : Job, (jobLe a b || jobLe b a) = true := by
      intro a b
      simp [jobLe]
      omega
    have h := List.sorted_mergeSort htrans htotal (db.filter pendingP)
    exact h.imp (by intro a b hab; simpa [jobLe] using hab)
  · unfold successful_sweep
    rw [mark_foldl_eq_map]
    have hfil : (db.map fun x =>
        if x.id ∈ (get_pending_products db).map Job.id then mark_merged url now x
        else x).filter pendingP = [] := by
      rw [List.filter_eq_nil_iff]
      intro a ha
      rw [List.mem_map] at ha
      obtain ⟨x, hx, rfl⟩ := ha
      by_cases hmem : x.id ∈ (get_pending_products db).map Job.id
      · simp [hmem, pendingP, mark_merged_merge]
      · rw [if_neg hmem]
        intro hp
        apply hmem
        rw [List.mem_map]
        refine ⟨x, ?_, rfl⟩
        unfold get_pending_products
        rw [List.mem_mergeSort, List.mem_filter]
        exact ⟨hx, hp⟩
    exact get_pending_products_eq_nil hfil

/-- Witness for C3 at a two-row table with one eligible job. -/
theorem pending_selection_and_idempotence_witness :
    stale_candidate_job ∈
      get_pending_products [stale_candidate_job,
        { id := 9, crawl_status := false, merge_status := false,
          r2_video_url := none, processed_at := none }] ∧
    get_pending_products (successful_sweep
      [stale_candidate_job,
        { id := 9, crawl_status := false, merge_status := false,
          r2_video_url := none, processed_at := none }] "https://pub.example/v.mp4"
      "2026-10-12") = [] := by
  have h := pending_selection_and_idempotence
    [stale_candidate_job,
      { id := 9, crawl_status := false, merge_status := false,
        r2_video_url := none, processed_at := none }]
    "https://pub.example/v.mp4" "2026-10-12"
  refine ⟨(h.1 stale_candidate_job).mpr ⟨by simp, rfl, rfl⟩, h.2.2⟩

end ProcessVideos
